import Mathlib

/-!
Shallow embedding of the dropbox-mcp server (src/app.py) and proofs of the
frozen claims about it.

Modelling conventions, used throughout:

* Python dicts that are serialized as JSON are modelled by the `JsonV` type
  below; a dict is `JsonV.obj` over an association list that preserves the
  Python insertion order of the keys.
* Python exceptions are modelled by the `Exc` type; a computation that can
  raise is an `Except Exc _` value.  `Exc.toStr` is Python's `str(e)`; for the
  library exception classes the stringified form is treated as an opaque
  message carried by the exception value.
* The Dropbox SDK client object is modelled by the `Backend` structure: one
  oracle field per SDK method used by app.py, each returning either a result
  or a raised exception.  Pagination of `files_list_folder` is modelled by the
  oracle returning the first page together with the (finite) sequence of pages
  that successive `files_list_folder_continue` calls would yield, each of
  which may itself be a raised exception; `has_more` is true exactly when
  further pages remain.
* Machine integers do not occur: all Python ints are unbounded, modelled as
  `Int` (or `Nat` for lengths).  Byte strings are `List Nat` with entries
  below 256 where that matters.
-/

/-- JSON-like values: the Python dict/list/str/int/bool/None data that app.py
builds and serializes.  `obj` keeps the insertion order of the keys, as a
Python dict does. -/
inductive JsonV where
  | null : JsonV
  | bool : Bool → JsonV
  | num : Int → JsonV
  | str : String → JsonV
  | arr : List JsonV → JsonV
  | obj : List (String × JsonV) → JsonV

/-- Python exceptions that app.py can observe: the Dropbox SDK's `ApiError`
and `AuthError`, plus the built-in classes that its own code can raise.  Each
carries its `str(e)` message. -/
inductive Exc where
  | apiError : String → Exc
  | authError : String → Exc
  | valueError : String → Exc
  | typeError : String → Exc
  | attributeError : String → Exc
  | otherError : String → Exc
deriving DecidableEq

/-- Python `str(e)` for a caught exception. -/
def Exc.toStr : Exc → String
  | .apiError m => m
  | .authError m => m
  | .valueError m => m
  | .typeError m => m
  | .attributeError m => m
  | .otherError m => m

/-- First-match lookup in an association list (Python dict `.get` on our
ordered representation; a Python dict has no duplicate keys, so first-match
is exact). -/
def lookupD (kvs : List (String × JsonV)) (k : String) : Option JsonV :=
  match kvs with
  | [] => none
  | kv :: rest => if kv.1 = k then some kv.2 else lookupD rest k

/-- Python truthiness of a JSON value (`if not data`, `if data else`). -/
def pyTruthy : JsonV → Bool
  | .null => false
  | .bool b => b
  | .num n => n != 0
  | .str s => s != ""
  | .arr xs => !xs.isEmpty
  | .obj kvs => !kvs.isEmpty

mutual

/-- Serialization of a JSON value, modelling `json.dumps(result, indent=2,
default=str)` in app.py.  The claims never inspect the concrete characters of
the serialized text, only which value was serialized, so the whitespace
(Python uses indent=2) and string escaping are elided here. -/
def dumps : JsonV → String
  | .null => "null"
  | .bool true => "true"
  | .bool false => "false"
  | .num n => toString n
  | .str s => "\"" ++ s ++ "\""
  | .arr xs => "[" ++ dumpsList xs ++ "]"
  | .obj kvs => "\x7b" ++ dumpsPairs kvs ++ "\x7d"

/-- Comma-joined serialization of array elements. -/
def dumpsList : List JsonV → String
  | [] => ""
  | [x] => dumps x
  | x :: rest => dumps x ++ ", " ++ dumpsList rest

/-- Comma-joined serialization of object entries. -/
def dumpsPairs : List (String × JsonV) → String
  | [] => ""
  | [kv] => "\"" ++ kv.1 ++ "\": " ++ dumps kv.2
  | kv :: rest => "\"" ++ kv.1 ++ "\": " ++ dumps kv.2 ++ ", " ++ dumpsPairs rest

end

/-- Python `str(v)` of a JSON value, as used by the f-strings in app.py
(`f"Unknown tool: {name}"`, `f"Method not found: {method}"`).  For the
container cases Python would print its own repr; the claims only exercise the
scalar cases, so the container cases reuse `dumps`. -/
def pyStr : JsonV → String
  | .null => "None"
  | .bool true => "True"
  | .bool false => "False"
  | .num n => toString n
  | .str s => s
  | v => dumps v

/-!
UTF-8 and base64 codecs.  These model Python's `bytes.decode('utf-8')`
(strict mode: overlong forms, surrogates and out-of-range scalars are
rejected), `str.encode('utf-8')`, `bytes.decode('latin-1')`,
`base64.b64encode` and `base64.b64decode`.  Bit operations are written with
division and remainder by powers of two, which is the same function on
unbounded naturals.
-/

/-- UTF-8 encoding of one Unicode scalar value (Python `chr(c).encode()`). -/
def utf8EncodeChar (c : Nat) : List Nat :=
  if c < 0x80 then [c]
  else if c < 0x800 then [0xC0 + c / 64, 0x80 + c % 64]
  else if c < 0x10000 then [0xE0 + c / 4096, 0x80 + c / 64 % 64, 0x80 + c % 64]
  else [0xF0 + c / 262144, 0x80 + c / 4096 % 64, 0x80 + c / 64 % 64, 0x80 + c % 64]

/-- Whether a byte is a UTF-8 continuation byte (10xxxxxx). -/
def utf8IsCont (b : Nat) : Bool := 0x80 ≤ b && b < 0xC0

/-- One step of strict UTF-8 decoding: given the lead byte and the bytes
after it, the decoded scalar value and how many continuation bytes it
consumed, or `none` exactly when Python `bytes.decode('utf-8')` raises
`UnicodeDecodeError` here: stray continuation bytes, overlong encodings (lead
bytes C0/C1, undersized 3- and 4-byte forms), surrogate code points and
scalars above U+10FFFF are all rejected. -/
def utf8DecodeOne (b0 : Nat) (rest : List Nat) : Option (Nat × Nat) :=
  if b0 < 0x80 then some (b0, 0)
  else if b0 < 0xE0 then
    match rest with
    | b1 :: _ =>
      if 0xC2 ≤ b0 && utf8IsCont b1 then some ((b0 - 0xC0) * 64 + (b1 - 0x80), 1)
      else none
    | [] => none
  else if b0 < 0xF0 then
    match rest with
    | b1 :: b2 :: _ =>
      let c := (b0 - 0xE0) * 4096 + (b1 - 0x80) * 64 + (b2 - 0x80)
      if utf8IsCont b1 && utf8IsCont b2 && 0x800 ≤ c && !(0xD800 ≤ c && c < 0xE000) then
        some (c, 2)
      else none
    | _ => none
  else
    match rest with
    | b1 :: b2 :: b3 :: _ =>
      let c := (b0 - 0xF0) * 262144 + (b1 - 0x80) * 4096 + (b2 - 0x80) * 64 + (b3 - 0x80)
      if b0 < 0xF5 && utf8IsCont b1 && utf8IsCont b2 && utf8IsCont b3 &&
          0x10000 ≤ c && c < 0x110000 then
        some (c, 3)
      else none
    | _ => none

/-- Strict UTF-8 decoding of a byte list into characters, `none` on any
malformed input (Python `bytes.decode('utf-8')` in its default strict
mode). -/
def utf8DecodeChars : List Nat → Option (List Char)
  | [] => some []
  | b0 :: rest =>
    match utf8DecodeOne b0 rest with
    | none => none
    | some (c, k) => (utf8DecodeChars (rest.drop k)).map (Char.ofNat c :: ·)
termination_by bs => bs.length
decreasing_by
  have := List.length_drop k rest
  simp only [List.length_cons]
  omega

/-- Python `s.encode('utf-8')` as a byte list. -/
def pyEncodeUtf8 (s : String) : List Nat :=
  s.data.flatMap (fun c => utf8EncodeChar c.toNat)

/-- Python `bs.decode('utf-8')`: `some` of the decoded text, or `none` when a
`UnicodeDecodeError` is raised. -/
def pyDecodeUtf8 (bs : List Nat) : Option String :=
  (utf8DecodeChars bs).map List.asString

/-- Python `bs.decode('latin-1')`: total, each byte becomes the code point of
the same value. -/
def latin1Decode (bs : List Nat) : String :=
  (bs.map Char.ofNat).asString

/-- The base64 alphabet in index order. -/
def b64Alphabet : List Char :=
  "ABCDEFGHIJKLMNOPQRSTUVWXYZabcdefghijklmnopqrstuvwxyz0123456789+/".data

/-- Character for a 6-bit group. -/
def b64Char (n : Nat) : Char := b64Alphabet.getD n 'A'

/-- Index of a base64 character, `none` for non-alphabet characters. -/
def b64CharVal (c : Char) : Option Nat :=
  b64Alphabet.indexOf? c

/-- Characters of the base64 encoding of a byte list, 3 bytes per 4
characters with `=` padding (Python `base64.b64encode`). -/
def b64EncodeChars : List Nat → List Char
  | [] => []
  | [a] => [b64Char (a / 4), b64Char (a % 4 * 16), '=', '=']
  | [a, b] => [b64Char (a / 4), b64Char (a % 4 * 16 + b / 16), b64Char (b % 16 * 4), '=']
  | a :: b :: c :: rest =>
    b64Char (a / 4) :: b64Char (a % 4 * 16 + b / 16) ::
      b64Char (b % 16 * 4 + c / 64) :: b64Char (c % 64) :: b64EncodeChars rest

/-- Python `base64.b64encode(bs).decode('ascii')`. -/
def base64Encode (bs : List Nat) : String := (b64EncodeChars bs).asString

/-- Decoding of base64 characters back to bytes; `none` on a malformed
encoding (Python `base64.b64decode` raising `binascii.Error`; Python's
default mode is laxer about stray characters, which no claim exercises). -/
def b64DecodeChars : List Char → Option (List Nat)
  | [] => some []
  | c1 :: c2 :: c3 :: c4 :: rest => do
    let v1 ← b64CharVal c1
    let v2 ← b64CharVal c2
    if c3 = '=' && c4 = '=' && rest.isEmpty then
      some [v1 * 4 + v2 / 16]
    else do
      let v3 ← b64CharVal c3
      if c4 = '=' && rest.isEmpty then
        some [v1 * 4 + v2 / 16, v2 % 16 * 16 + v3 / 4]
      else do
        let v4 ← b64CharVal c4
        let tail ← b64DecodeChars rest
        some ((v1 * 4 + v2 / 16) :: (v2 % 16 * 16 + v3 / 4) :: (v3 % 4 * 64 + v4) :: tail)
  | _ => none

/-- Python `base64.b64decode(s)`. -/
def base64Decode (s : String) : Option (List Nat) := b64DecodeChars s.data

/-!
Size formatting and SDK-side data model.
-/

/-- One decimal digit rendering of the fraction n / d (the f-string
`f"{size:.1f}"` applied to the value size = n / d reached after repeated
division by 1024; Python renders the nearest-representable binary float, whose
exact rounding in the last decimal no claim exercises, so the quotient is
truncated here). -/
def fmtOneDecimal (n : Int) (d : Nat) : String :=
  let t : Int := n * 10 / d
  toString (t / 10) ++ "." ++ toString (t % 10).natAbs

/-- Loop of `format_size`: `for unit in ['B','KB','MB','GB','TB']`, dividing
by 1024 until the absolute value is below 1024; `d` is the power of 1024
accumulated so far, so the Python float `size_bytes` equals n / d. -/
def formatSizeGo : List String → Int → Nat → String
  | [], n, d => fmtOneDecimal n d ++ " PB"
  | u :: us, n, d => if n.natAbs < 1024 * d then fmtOneDecimal n d ++ " " ++ u
      else formatSizeGo us n (d * 1024)

/-- app.py `format_size`: human-readable byte count; `None` renders as
"Unknown". -/
def format_size : Option Int → String
  | none => "Unknown"
  | some n => formatSizeGo ["B", "KB", "MB", "GB", "TB"] n 1

/-- Dropbox `FileMetadata` fields that app.py reads.  Timestamps are carried
as their `isoformat()` strings, which is all app.py does with them. -/
structure FileMeta where
  name : String
  path_display : String
  size : Int
  server_modified : Option String
  client_modified : Option String
  rev : String
  content_hash : Option String
  is_downloadable : Bool

/-- Dropbox metadata: a `FileMetadata` or a `FolderMetadata` (only name and
path_display of a folder are read by app.py). -/
inductive Metadata where
  | file : FileMeta → Metadata
  | folder : (name : String) → (path_display : String) → Metadata

/-- Dropbox shared-link object fields read by app.py. -/
structure SharedLink where
  url : String
  path_lower : String

/-- Dropbox space-allocation variants distinguished by `get_space_usage`. -/
inductive Allocation where
  | individual : (allocated : Int) → Allocation
  | team : (allocated : Int) → Allocation
  | other : Allocation

/-- Dropbox `SpaceUsage` fields read by app.py. -/
structure SpaceUsage where
  used : Int
  allocation : Allocation

/-- Dropbox account fields read by `test_connection` (`account_type` is
carried as its `str()` form). -/
structure Account where
  account_id : String
  display_name : String
  email : String
  account_type : String
  team : Option String

/-- The Dropbox SDK client as an oracle: one field per SDK method app.py
calls, each returning a value or a raised exception.  `files_list_folder`
yields the first page of entries together with the outcomes of the successive
`files_list_folder_continue` calls (a finite page sequence; `has_more` is
modelled as "further pages remain").  `files_download` yields the file
metadata and the raw bytes of `response.content`. -/
structure Backend where
  files_list_folder : String → Bool → Int → Except Exc (List Metadata × List (Except Exc (List Metadata)))
  files_search_v2 : String → Option String → Option (List String) → Int → Except Exc (List Metadata)
  files_get_metadata : String → Except Exc Metadata
  files_download : String → Except Exc (FileMeta × List Nat)
  files_upload : List Nat → String → Bool → Except Exc FileMeta
  files_create_folder_v2 : String → Except Exc (String × String)
  files_move_v2 : String → String → Except Exc Metadata
  files_copy_v2 : String → String → Except Exc Metadata
  files_delete_v2 : String → Except Exc Metadata
  sharing_list_shared_links : String → Except Exc (List SharedLink)
  sharing_create_shared_link_with_settings : String → Except Exc SharedLink
  files_list_revisions : String → Int → Except Exc (List FileMeta)
  users_get_space_usage : Unit → Except Exc SpaceUsage
  users_get_current_account : Unit → Except Exc Account

/-- The credential environment variables (`None` for unset). -/
structure Config where
  access_token : Option String
  refresh_token : Option String
  app_key : Option String
  app_secret : Option String

/-- Python truthiness of an environment variable: set and non-empty. -/
def envSet : Option String → Bool
  | none => false
  | some s => s != ""

/-- app.py `get_dropbox_client`: succeeds (the client itself is the injected
`Backend`) when a refresh-token triple or an access token is configured,
otherwise raises `ValueError`. -/
def get_dropbox_client (cfg : Config) : Except Exc Unit :=
  if envSet cfg.refresh_token && envSet cfg.app_key && envSet cfg.app_secret then .ok ()
  else if envSet cfg.access_token then .ok ()
  else .error (.valueError "No Dropbox credentials configured")

/-- The failure ResultEnvelope `{"success": False, "error": msg}`. -/
def failureD (msg : String) : JsonV :=
  .obj [("success", .bool false), ("error", .str msg)]

/-- The `try/except ApiError` pattern shared by most operation
implementations in app.py: an `ApiError` raised inside the body becomes the
failure envelope with the stringified error; any other exception propagates. -/
def pyTryApi (r : Except Exc JsonV) : Except Exc JsonV :=
  match r with
  | .error (.apiError m) => .ok (failureD m)
  | x => x

/-- Optional string as a JSON value (`x if x else None` style fields). -/
def optStrV : Option String → JsonV
  | none => .null
  | some s => .str s

/-!
Operation implementations (app.py lines 305-655).  Each takes the credential
configuration and backend plus its typed parameters, and returns the dict it
would produce, or the exception it would raise past its own boundary.
-/

/-- Entry dict built for each entry by `list_folder` (the `content_hash`
field truncates the hash to 16 characters plus an ellipsis; an absent or
empty hash renders as `None` by Python truthiness). -/
def entryInfo : Metadata → JsonV
  | .folder nm pd =>
    .obj [("name", .str nm), ("path", .str pd), ("type", .str "folder")]
  | .file m =>
    .obj [("name", .str m.name), ("path", .str m.path_display), ("type", .str "file"),
          ("size", .num m.size), ("size_human", .str (format_size (some m.size))),
          ("modified", optStrV m.server_modified),
          ("content_hash",
            match m.content_hash with
            | some h => if h = "" then .null else .str (h.take 16 ++ "...")
            | none => .null)]

/-- Match dict built for each match by `search_files`. -/
def matchInfo : Metadata → JsonV
  | .folder nm pd =>
    .obj [("name", .str nm), ("path", .str pd), ("type", .str "folder")]
  | .file m =>
    .obj [("name", .str m.name), ("path", .str m.path_display), ("type", .str "file"),
          ("size", .num m.size), ("size_human", .str (format_size (some m.size))),
          ("modified", optStrV m.server_modified)]

/-- Inner `for entry in result.entries` loop of `list_folder`: appends each
entry's dict and breaks as soon as `len(entries) >= limit`. -/
def collectEntries (limit : Int) (acc : List JsonV) : List Metadata → List JsonV
  | [] => acc
  | e :: es =>
    let acc2 := acc ++ [entryInfo e]
    if (acc2.length : Int) ≥ limit then acc2 else collectEntries limit acc2 es

/-- Outer `while True` loop of `list_folder` over the current page and the
remaining continuation pages; also counts how many
`files_list_folder_continue` requests are made.  The loop breaks when
`not result.has_more or len(entries) >= limit`. -/
def listFolderGo (limit : Int) (acc : List JsonV) (page : List Metadata) :
    List (Except Exc (List Metadata)) → Except Exc (List JsonV × Nat)
  | [] => .ok (collectEntries limit acc page, 0)
  | r :: rs =>
    let acc2 := collectEntries limit acc page
    if (acc2.length : Int) ≥ limit then .ok (acc2, 0)
    else
      match r with
      | .error e => .error e
      | .ok p => (listFolderGo limit acc2 p rs).map (fun rk => (rk.1, rk.2 + 1))

/-- Python slice `xs[:n]` with an `int` bound, including the negative case. -/
def pySliceTo (n : Int) (xs : List JsonV) : List JsonV :=
  if 0 ≤ n then xs.take n.toNat else xs.take ((xs.length : Int) + n).toNat

/-- Whether `pat` occurs at the start of `s` (character lists). -/
def charsLeadWith : List Char → List Char → Bool
  | [], _ => true
  | _ :: _, [] => false
  | a :: as, b :: bs => a = b && charsLeadWith as bs

/-- Whether `pat` occurs anywhere in `s` (character lists). -/
def charsContain (pat : List Char) : List Char → Bool
  | [] => charsLeadWith pat []
  | c :: rest => charsLeadWith pat (c :: rest) || charsContain pat rest

/-- Python substring test `pat in s`. -/
def strContains (s pat : String) : Bool := charsContain pat.data s.data

/-- app.py `list_folder` (lines 305-342). -/
def list_folder (cfg : Config) (b : Backend) (path : String) (recursive : Bool)
    (limit : Int) : Except Exc JsonV :=
  pyTryApi (do
    let _ ← get_dropbox_client cfg
    let (page0, rest) ← b.files_list_folder path recursive (min limit 2000)
    let (entries, _) ← listFolderGo limit [] page0 rest
    .ok (.obj [("success", .bool true),
               ("path", .str (if path = "" then "/" else path)),
               ("count", .num entries.length),
               ("entries", .arr (pySliceTo limit entries))]))

/-- app.py `search_files` (lines 344-381). -/
def search_files (cfg : Config) (b : Backend) (query : String)
    (path : Option String) (file_extensions : Option (List String))
    (max_results : Int) : Except Exc JsonV :=
  pyTryApi (do
    let _ ← get_dropbox_client cfg
    let ms ← b.files_search_v2 query path file_extensions (min max_results 1000)
    .ok (.obj [("success", .bool true), ("query", .str query),
               ("count", .num ms.length),
               ("matches", .arr (ms.map matchInfo))]))

/-- app.py `get_file_metadata` (lines 383-409). -/
def get_file_metadata (cfg : Config) (b : Backend) (path : String) :
    Except Exc JsonV :=
  pyTryApi (do
    let _ ← get_dropbox_client cfg
    let md ← b.files_get_metadata path
    match md with
    | .folder nm pd =>
      .ok (.obj [("success", .bool true), ("name", .str nm), ("path", .str pd),
                 ("type", .str "folder")])
    | .file m =>
      .ok (.obj [("success", .bool true), ("name", .str m.name),
                 ("path", .str m.path_display), ("type", .str "file"),
                 ("size", .num m.size),
                 ("size_human", .str (format_size (some m.size))),
                 ("modified", optStrV m.server_modified),
                 ("client_modified", optStrV m.client_modified),
                 ("rev", .str m.rev),
                 ("content_hash", optStrV m.content_hash),
                 ("is_downloadable", .bool m.is_downloadable)]))

/-- app.py `download_file` (lines 411-441): as text, attempt UTF-8 and fall
back to base64 with a note; otherwise base64 directly. -/
def download_file (cfg : Config) (b : Backend) (path : String) (as_text : Bool) :
    Except Exc JsonV :=
  pyTryApi (do
    let _ ← get_dropbox_client cfg
    let (meta, content) ← b.files_download path
    let base := [("success", .bool true), ("name", JsonV.str meta.name),
                 ("path", JsonV.str meta.path_display), ("size", JsonV.num meta.size)]
    if as_text then
      match pyDecodeUtf8 content with
      | some text =>
        .ok (.obj (base ++ [("content", .str text), ("encoding", .str "utf-8")]))
      | none =>
        .ok (.obj (base ++ [("content", .str (base64Encode content)),
                            ("encoding", .str "base64"),
                            ("note", .str "Binary file returned as base64")]))
    else
      .ok (.obj (base ++ [("content", .str (base64Encode content)),
                          ("encoding", .str "base64")])))

/-- app.py `read_text_file` (lines 443-467): truncates to `max_bytes`,
attempts UTF-8 and silently falls back to latin-1; the dict carries no
field recording which decoding was used. -/
def read_text_file (cfg : Config) (b : Backend) (path : String)
    (max_bytes : Int) : Except Exc JsonV :=
  pyTryApi (do
    let _ ← get_dropbox_client cfg
    let (meta, full) ← b.files_download path
    let content := if 0 ≤ max_bytes then full.take max_bytes.toNat
      else full.take ((full.length : Int) + max_bytes).toNat
    let truncated := (full.length : Int) > max_bytes
    let text := match pyDecodeUtf8 content with
      | some t => t
      | none => latin1Decode content
    .ok (.obj [("success", .bool true), ("name", .str meta.name),
               ("path", .str meta.path_display), ("size", .num meta.size),
               ("content", .str text), ("truncated", .bool truncated),
               ("bytes_read", .num content.length)]))

/-- Content preparation of `upload_file`: utf-8 encode raw text, or
base64-decode when `is_base64` (a decode failure is a raised
`binascii.Error`, modelled as `otherError`). -/
def uploadData (content : String) (is_base64 : Bool) : Except Exc (List Nat) :=
  if is_base64 then
    match base64Decode content with
    | some bs => .ok bs
    | none => .error (.otherError "Invalid base64-encoded string")
  else .ok (pyEncodeUtf8 content)

/-- app.py `upload_file` (lines 469-493). -/
def upload_file (cfg : Config) (b : Backend) (path content : String)
    (is_base64 overwrite : Bool) : Except Exc JsonV :=
  pyTryApi (do
    let _ ← get_dropbox_client cfg
    let data ← uploadData content is_base64
    let meta ← b.files_upload data path overwrite
    .ok (.obj [("success", .bool true), ("name", .str meta.name),
               ("path", .str meta.path_display), ("size", .num meta.size),
               ("size_human", .str (format_size (some meta.size))),
               ("rev", .str meta.rev)]))

/-- app.py `create_folder` (lines 495-509): an `ApiError` whose stringified
form contains "path/conflict/folder" becomes a success with an informational
message; any other `ApiError` becomes the failure envelope. -/
def create_folder (cfg : Config) (b : Backend) (path : String) :
    Except Exc JsonV :=
  match (do
      let _ ← get_dropbox_client cfg
      let md ← b.files_create_folder_v2 path
      (.ok (.obj [("success", .bool true), ("name", .str md.1),
                  ("path", .str md.2)]) : Except Exc JsonV)) with
  | .error (.apiError m) =>
    if strContains m "path/conflict/folder" then
      .ok (.obj [("success", .bool true),
                 ("message", .str "Folder already exists"), ("path", .str path)])
    else .ok (failureD m)
  | x => x

/-- Name and path_display of a metadata value (`metadata.metadata.name`
and `.path_display` of the relocation results). -/
def metaNamePath : Metadata → String × String
  | .file m => (m.name, m.path_display)
  | .folder nm pd => (nm, pd)

/-- app.py `move_file` (lines 511-523). -/
def move_file (cfg : Config) (b : Backend) (from_path to_path : String) :
    Except Exc JsonV :=
  pyTryApi (do
    let _ ← get_dropbox_client cfg
    let md ← b.files_move_v2 from_path to_path
    .ok (.obj [("success", .bool true), ("from_path", .str from_path),
               ("to_path", .str (metaNamePath md).2)]))

/-- app.py `copy_file` (lines 525-537). -/
def copy_file (cfg : Config) (b : Backend) (from_path to_path : String) :
    Except Exc JsonV :=
  pyTryApi (do
    let _ ← get_dropbox_client cfg
    let md ← b.files_copy_v2 from_path to_path
    .ok (.obj [("success", .bool true), ("from_path", .str from_path),
               ("to_path", .str (metaNamePath md).2)]))

/-- app.py `delete_file` (lines 539-551). -/
def delete_file (cfg : Config) (b : Backend) (path : String) :
    Except Exc JsonV :=
  pyTryApi (do
    let _ ← get_dropbox_client cfg
    let md ← b.files_delete_v2 path
    .ok (.obj [("success", .bool true),
               ("deleted_path", .str (metaNamePath md).2),
               ("note", .str "File moved to trash - can be recovered from Dropbox")]))

/-- Second half of `get_shared_link`: create a fresh link when permitted,
otherwise report failure. -/
def sharedLinkCreate (b : Backend) (path : String) (create_if_missing : Bool) :
    Except Exc JsonV :=
  if create_if_missing then do
    let l ← b.sharing_create_shared_link_with_settings path
    .ok (.obj [("success", .bool true), ("url", .str l.url),
               ("path", .str l.path_lower), ("existing", .bool false)])
  else .ok (failureD "No existing shared link found")

/-- app.py `get_shared_link` (lines 553-587): the inner
`try/except ApiError: pass` around the listing call means only an `ApiError`
there falls through to creation; other exceptions propagate to the outer
handler. -/
def get_shared_link (cfg : Config) (b : Backend) (path : String)
    (create_if_missing : Bool) : Except Exc JsonV :=
  pyTryApi (do
    let _ ← get_dropbox_client cfg
    match b.sharing_list_shared_links path with
    | .ok (l :: _) =>
      .ok (.obj [("success", .bool true), ("url", .str l.url),
                 ("path", .str l.path_lower), ("existing", .bool true)])
    | .ok [] => sharedLinkCreate b path create_if_missing
    | .error (.apiError _) => sharedLinkCreate b path create_if_missing
    | .error e => .error e)

/-- Revision dict built for each entry by `list_revisions`. -/
def revInfo (m : FileMeta) : JsonV :=
  .obj [("rev", .str m.rev), ("size", .num m.size),
        ("size_human", .str (format_size (some m.size))),
        ("modified", optStrV m.server_modified)]

/-- app.py `list_revisions` (lines 589-611). -/
def list_revisions (cfg : Config) (b : Backend) (path : String) (limit : Int) :
    Except Exc JsonV :=
  pyTryApi (do
    let _ ← get_dropbox_client cfg
    let revs ← b.files_list_revisions path limit
    .ok (.obj [("success", .bool true), ("path", .str path),
               ("count", .num revs.length),
               ("revisions", .arr (revs.map revInfo))]))

/-- Rounded percentage for `get_space_usage`, in hundredths (Python computes
`round(used / allocated * 100, 2)` on floats; the exact float rounding is not
exercised by any claim, so the value is recorded as truncated hundredths of a
percent). -/
def pctUsedHundredths (used allocated : Int) : Int := used * 10000 / allocated

/-- app.py `get_space_usage` (lines 613-636): `percent_used` and the
"Unlimited" marker are guarded by Python truthiness of `allocated`, so both a
missing and a zero allocation avoid the division. -/
def get_space_usage (cfg : Config) (b : Backend) : Except Exc JsonV :=
  pyTryApi (do
    let _ ← get_dropbox_client cfg
    let u ← b.users_get_space_usage ()
    let allocated : Option Int := match u.allocation with
      | .individual a => some a
      | .team a => some a
      | .other => none
    let allocTruthy : Bool := match allocated with
      | some a => a != 0
      | none => false
    .ok (.obj [("success", .bool true), ("used", .num u.used),
               ("used_human", .str (format_size (some u.used))),
               ("allocated", match allocated with | some a => .num a | none => .null),
               ("allocated_human",
                 .str (if allocTruthy then format_size allocated else "Unlimited")),
               ("percent_used",
                 match allocated with
                 | some a => if allocTruthy then .num (pctUsedHundredths u.used a) else .null
                 | none => .null)]))

/-- app.py `test_connection` (lines 638-655): distinguishes `AuthError` from
every other exception, and catches everything. -/
def test_connection (cfg : Config) (b : Backend) : Except Exc JsonV :=
  match (do
      let _ ← get_dropbox_client cfg
      let a ← b.users_get_current_account ()
      (.ok (.obj [("success", .bool true), ("account_id", .str a.account_id),
                  ("name", .str a.display_name), ("email", .str a.email),
                  ("account_type", .str a.account_type),
                  ("team", optStrV a.team)]) : Except Exc JsonV)) with
  | .error (.authError m) => .ok (failureD ("Authentication failed: " ++ m))
  | .error e => .ok (failureD e.toStr)
  | x => x

/-!
Dispatcher (app.py `call_tool`, lines 671-697) and the keyword-argument
binding performed by `tool_map[name](**arguments)`.

Python binds the argument mapping to each implementation's named parameters:
an unexpected key or a missing required key raises `TypeError` at the call
site, inside `call_tool`'s `try`.  A value of the wrong runtime type is
accepted by the binding and raises only when the implementation uses it
(still inside a region whose non-`ApiError` exceptions reach `call_tool`'s
handler); the binders below raise the `TypeError` at binding time, which is
observationally the same at the dispatcher boundary that the claims are
about.
-/

/-- Binding failure for a non-mapping `**arguments` operand. -/
def argsAsObj (args : JsonV) : Except Exc (List (String × JsonV)) :=
  match args with
  | .obj kvs => .ok kvs
  | _ => .error (.typeError "argument of type object is not a mapping")

/-- Rejects keys that match no parameter name. -/
def checkKeys (kvs : List (String × JsonV)) (allowed : List String) :
    Except Exc Unit :=
  if kvs.all (fun kv => allowed.contains kv.1) then .ok ()
  else .error (.typeError "got an unexpected keyword argument")

/-- Required argument: present or `TypeError`. -/
def reqArg (kvs : List (String × JsonV)) (k : String) : Except Exc JsonV :=
  match lookupD kvs k with
  | some v => .ok v
  | none => .error (.typeError ("missing a required argument: " ++ k))

/-- Optional argument with the Python-signature default. -/
def optArg (kvs : List (String × JsonV)) (k : String) (dflt : JsonV) : JsonV :=
  (lookupD kvs k).getD dflt

/-- String-typed parameter value. -/
def asStr (v : JsonV) : Except Exc String :=
  match v with
  | .str s => .ok s
  | _ => .error (.typeError "expected a string value")

/-- Bool-typed parameter value. -/
def asBool (v : JsonV) : Except Exc Bool :=
  match v with
  | .bool b => .ok b
  | _ => .error (.typeError "expected a boolean value")

/-- Int-typed parameter value. -/
def asInt (v : JsonV) : Except Exc Int :=
  match v with
  | .num n => .ok n
  | _ => .error (.typeError "expected an integer value")

/-- String-or-None parameter value (`path: str = None` style). -/
def asOptStr (v : JsonV) : Except Exc (Option String) :=
  match v with
  | .null => .ok none
  | .str s => .ok (some s)
  | _ => .error (.typeError "expected a string value or None")

/-- List-of-strings-or-None parameter value (`file_extensions`). -/
def asOptStrList (v : JsonV) : Except Exc (Option (List String)) :=
  match v with
  | .null => .ok none
  | .arr xs =>
    (xs.mapM asStr).map some
  | _ => .error (.typeError "expected a list of strings or None")

/-- Execution of one named implementation on a raw argument mapping: the
body of `tool_map[name](**arguments)` for each of the fourteen entries of
`tool_map`.  A name outside the map is never passed here by `call_tool`. -/
def runTool (cfg : Config) (b : Backend) (n : String) (args : JsonV) :
    Except Exc JsonV :=
  match n with
  | "list_folder" => do
    let kvs ← argsAsObj args
    let _ ← checkKeys kvs ["path", "recursive", "limit"]
    let path ← asStr (optArg kvs "path" (.str ""))
    let recursive ← asBool (optArg kvs "recursive" (.bool false))
    let limit ← asInt (optArg kvs "limit" (.num 100))
    list_folder cfg b path recursive limit
  | "search_files" => do
    let kvs ← argsAsObj args
    let _ ← checkKeys kvs ["query", "path", "file_extensions", "max_results"]
    let query ← asStr (← reqArg kvs "query")
    let path ← asOptStr (optArg kvs "path" .null)
    let exts ← asOptStrList (optArg kvs "file_extensions" .null)
    let maxr ← asInt (optArg kvs "max_results" (.num 50))
    search_files cfg b query path exts maxr
  | "get_file_metadata" => do
    let kvs ← argsAsObj args
    let _ ← checkKeys kvs ["path"]
    let path ← asStr (← reqArg kvs "path")
    get_file_metadata cfg b path
  | "download_file" => do
    let kvs ← argsAsObj args
    let _ ← checkKeys kvs ["path", "as_text"]
    let path ← asStr (← reqArg kvs "path")
    let as_text ← asBool (optArg kvs "as_text" (.bool true))
    download_file cfg b path as_text
  | "read_text_file" => do
    let kvs ← argsAsObj args
    let _ ← checkKeys kvs ["path", "max_bytes"]
    let path ← asStr (← reqArg kvs "path")
    let max_bytes ← asInt (optArg kvs "max_bytes" (.num 1000000))
    read_text_file cfg b path max_bytes
  | "upload_file" => do
    let kvs ← argsAsObj args
    let _ ← checkKeys kvs ["path", "content", "is_base64", "overwrite"]
    let path ← asStr (← reqArg kvs "path")
    let content ← asStr (← reqArg kvs "content")
    let is_base64 ← asBool (optArg kvs "is_base64" (.bool false))
    let overwrite ← asBool (optArg kvs "overwrite" (.bool true))
    upload_file cfg b path content is_base64 overwrite
  | "create_folder" => do
    let kvs ← argsAsObj args
    let _ ← checkKeys kvs ["path"]
    let path ← asStr (← reqArg kvs "path")
    create_folder cfg b path
  | "move_file" => do
    let kvs ← argsAsObj args
    let _ ← checkKeys kvs ["from_path", "to_path"]
    let from_path ← asStr (← reqArg kvs "from_path")
    let to_path ← asStr (← reqArg kvs "to_path")
    move_file cfg b from_path to_path
  | "copy_file" => do
    let kvs ← argsAsObj args
    let _ ← checkKeys kvs ["from_path", "to_path"]
    let from_path ← asStr (← reqArg kvs "from_path")
    let to_path ← asStr (← reqArg kvs "to_path")
    copy_file cfg b from_path to_path
  | "delete_file" => do
    let kvs ← argsAsObj args
    let _ ← checkKeys kvs ["path"]
    let path ← asStr (← reqArg kvs "path")
    delete_file cfg b path
  | "get_shared_link" => do
    let kvs ← argsAsObj args
    let _ ← checkKeys kvs ["path", "create_if_missing"]
    let path ← asStr (← reqArg kvs "path")
    let create_if_missing ← asBool (optArg kvs "create_if_missing" (.bool true))
    get_shared_link cfg b path create_if_missing
  | "list_revisions" => do
    let kvs ← argsAsObj args
    let _ ← checkKeys kvs ["path", "limit"]
    let path ← asStr (← reqArg kvs "path")
    let limit ← asInt (optArg kvs "limit" (.num 10))
    list_revisions cfg b path limit
  | "get_space_usage" => do
    let kvs ← argsAsObj args
    let _ ← checkKeys kvs []
    get_space_usage cfg b
  | "test_connection" => do
    let kvs ← argsAsObj args
    let _ ← checkKeys kvs []
    test_connection cfg b
  | _ => .error (.otherError "not a tool_map entry")

/-- Keys of `tool_map` in app.py `call_tool`. -/
def toolNames : List String :=
  ["list_folder", "search_files", "get_file_metadata", "download_file",
   "read_text_file", "upload_file", "create_folder", "move_file", "copy_file",
   "delete_file", "get_shared_link", "list_revisions", "get_space_usage",
   "test_connection"]

/-- app.py `call_tool` (lines 671-697): an unknown name yields the
"Unknown tool" failure envelope; a known name runs the implementation with
every exception caught and converted to the failure envelope with the
exception's message.  A non-hashable `name` value (a JSON array or object)
makes the Python membership test `name not in tool_map` itself raise
`TypeError`, outside the `try`, so that raise propagates to the caller. -/
def call_tool (cfg : Config) (b : Backend) (name arguments : JsonV) :
    Except Exc JsonV :=
  match name with
  | .arr _ => .error (.typeError "unhashable type")
  | .obj _ => .error (.typeError "unhashable type")
  | .str n =>
    if n ∈ toolNames then
      match runTool cfg b n arguments with
      | .ok d => .ok d
      | .error e => .ok (failureD e.toStr)
    else .ok (failureD ("Unknown tool: " ++ n))
  | other => .ok (failureD ("Unknown tool: " ++ pyStr other))

/-!
Operation catalog (app.py `TOOLS`, lines 48-299), embedded verbatim as the
JSON it serializes to.  It is a top-level constant, never mutated anywhere in
app.py, which is what "fixed for the process lifetime" means here.
-/

/-- Schema helper: a string property with a description. -/
def propStr (desc : String) : JsonV :=
  .obj [("type", .str "string"), ("description", .str desc)]

/-- Schema helper: a boolean property with a description and default. -/
def propBool (desc : String) (dflt : Bool) : JsonV :=
  .obj [("type", .str "boolean"), ("description", .str desc), ("default", .bool dflt)]

/-- Schema helper: an integer property with a description and default. -/
def propInt (desc : String) (dflt : Int) : JsonV :=
  .obj [("type", .str "integer"), ("description", .str desc), ("default", .num dflt)]

/-- Schema helper: an object input schema. -/
def inputSchema (props : List (String × JsonV)) (required : List String) : JsonV :=
  .obj [("type", .str "object"), ("properties", .obj props),
        ("required", .arr (required.map JsonV.str))]

/-- One catalog descriptor. -/
def toolDesc (name desc : String) (schema : JsonV) : JsonV :=
  .obj [("name", .str name), ("description", .str desc), ("inputSchema", schema)]

/-- app.py `TOOLS`. -/
def TOOLS : List JsonV :=
  [toolDesc "list_folder"
    "List files and folders in a Dropbox directory. Returns file names, sizes, and modification dates."
    (inputSchema
      [("path", propStr "Dropbox folder path (use '' for root, '/folder' for subfolder)"),
       ("recursive", propBool "Include contents of subfolders" false),
       ("limit", propInt "Maximum number of entries to return" 100)] []),
   toolDesc "search_files"
    "Search for files and folders in Dropbox by name or content."
    (inputSchema
      [("query", propStr "Search query (searches file names and content)"),
       ("path", propStr "Limit search to this folder path (optional)"),
       ("file_extensions",
         .obj [("type", .str "array"), ("items", .obj [("type", .str "string")]),
               ("description", .str "Filter by file extensions (e.g., ['pdf', 'docx'])")]),
       ("max_results", propInt "Maximum results to return" 50)] ["query"]),
   toolDesc "get_file_metadata"
    "Get detailed metadata for a file or folder including size, dates, and sharing info."
    (inputSchema [("path", propStr "Full path to the file or folder")] ["path"]),
   toolDesc "download_file"
    "Download a file from Dropbox and return its contents (text files) or base64 (binary)."
    (inputSchema
      [("path", propStr "Full path to the file in Dropbox"),
       ("as_text", propBool "Return as text (True) or base64 (False)" true)] ["path"]),
   toolDesc "read_text_file"
    "Read the text content of a file (txt, md, csv, json, etc.)."
    (inputSchema
      [("path", propStr "Full path to the text file"),
       ("max_bytes", propInt "Maximum bytes to read (for large files)" 1000000)] ["path"]),
   toolDesc "upload_file"
    "Upload a file to Dropbox. Supports text content or base64-encoded binary."
    (inputSchema
      [("path", propStr "Destination path in Dropbox (e.g., '/Reports/Q4_Report.pdf')"),
       ("content", propStr "File content (text or base64-encoded)"),
       ("is_base64", propBool "Set to true if content is base64-encoded" false),
       ("overwrite", propBool "Overwrite if file exists" true)] ["path", "content"]),
   toolDesc "create_folder"
    "Create a new folder in Dropbox."
    (inputSchema [("path", propStr "Full path for the new folder")] ["path"]),
   toolDesc "move_file"
    "Move or rename a file or folder."
    (inputSchema
      [("from_path", propStr "Current path of the file/folder"),
       ("to_path", propStr "New path for the file/folder")] ["from_path", "to_path"]),
   toolDesc "copy_file"
    "Copy a file or folder to a new location."
    (inputSchema
      [("from_path", propStr "Source path"),
       ("to_path", propStr "Destination path")] ["from_path", "to_path"]),
   toolDesc "delete_file"
    "Delete a file or folder (moves to trash, can be recovered)."
    (inputSchema [("path", propStr "Path to delete")] ["path"]),
   toolDesc "get_shared_link"
    "Get or create a shared link for a file or folder."
    (inputSchema
      [("path", propStr "Path to the file/folder"),
       ("create_if_missing", propBool "Create a new link if none exists" true)] ["path"]),
   toolDesc "list_revisions"
    "List previous versions of a file."
    (inputSchema
      [("path", propStr "Path to the file"),
       ("limit", propInt "Maximum revisions to return" 10)] ["path"]),
   toolDesc "get_space_usage"
    "Get Dropbox account storage usage and quota."
    (.obj [("type", .str "object"), ("properties", .obj [])]),
   toolDesc "test_connection"
    "Test the Dropbox API connection and return account info."
    (.obj [("type", .str "object"), ("properties", .obj [])])]

/-- Descriptor names of the catalog, in order. -/
def catalogNames : List String :=
  TOOLS.filterMap (fun t =>
    match t with
    | .obj kvs =>
      match lookupD kvs "name" with
      | some (.str s) => some s
      | _ => none
    | _ => none)

/-!
Protocol session handler (app.py `mcp_handler`, lines 714-776).

The inbound body is `Option JsonV`: `none` models `request.get_json()`
producing no parsed value for an unparseable body, which the code answers
with the -32700 envelope.  The outcome is `Except Exc HttpResp`: an `.error`
is an exception escaping `mcp_handler` itself, which the surrounding
transport (Flask) turns into a raw 500 — exactly a fault reaching the
transport layer unhandled.
-/

/-- An HTTP response: JSON body plus status code (Flask defaults to 200 when
the handler returns only a body). -/
structure HttpResp where
  body : JsonV
  status : Nat

/-- Python `data.get(key, default)`: raises `AttributeError` unless the value
is a dict. -/
def pyGet (v : JsonV) (k : String) (dflt : JsonV) : Except Exc JsonV :=
  match v with
  | .obj kvs => .ok ((lookupD kvs k).getD dflt)
  | _ => .error (.attributeError "object has no attribute get")

/-- The fixed JSON-RPC response header fields. -/
def rpcHeader (idv : JsonV) : List (String × JsonV) :=
  [("jsonrpc", .str "2.0"), ("id", idv)]

/-- The -32700 parse-error response (status 400, id null). -/
def parseErrorResp : HttpResp :=
  ⟨.obj (rpcHeader .null ++
    [("error", .obj [("code", .num (-32700)), ("message", .str "Parse error")])]), 400⟩

/-- Body of the `try` block of `mcp_handler`: parse-failure check, then
method dispatch.  Exceptions escaping any step surface as `.error`. -/
def mcpTry (cfg : Config) (b : Backend) (data : Option JsonV) :
    Except Exc HttpResp :=
  match data with
  | none => .ok parseErrorResp
  | some d =>
    if pyTruthy d = false then .ok parseErrorResp
    else do
      let method ← pyGet d "method" .null
      let params ← pyGet d "params" (.obj [])
      let msgId ← pyGet d "id" (.num 1)
      match method with
      | .str "initialize" =>
        .ok ⟨.obj (rpcHeader msgId ++
          [("result", .obj
            [("protocolVersion", .str "2024-11-05"),
             ("capabilities", .obj [("tools", .obj [("listChanged", .bool true)])]),
             ("serverInfo", .obj [("name", .str "dropbox-mcp"),
                                  ("version", .str "1.0.0")])])]), 200⟩
      | .str "notifications/initialized" =>
        .ok ⟨.obj (rpcHeader msgId ++ [("result", .obj [])]), 200⟩
      | .str "tools/list" =>
        .ok ⟨.obj (rpcHeader msgId ++ [("result", .obj [("tools", .arr TOOLS)])]), 200⟩
      | .str "tools/call" => do
        let tool_name ← pyGet params "name" .null
        let arguments ← pyGet params "arguments" (.obj [])
        let result ← call_tool cfg b tool_name arguments
        .ok ⟨.obj (rpcHeader msgId ++
          [("result", .obj [("content", .arr
            [.obj [("type", .str "text"), ("text", .str (dumps result))]])])]), 200⟩
      | m =>
        .ok ⟨.obj (rpcHeader msgId ++
          [("error", .obj [("code", .num (-32601)),
            ("message", .str ("Method not found: " ++ pyStr m))])]), 200⟩

/-- The -32603 internal-error response built in the `except` block. -/
def internalErrorResp (idv : JsonV) (e : Exc) : HttpResp :=
  ⟨.obj (rpcHeader idv ++
    [("error", .obj [("code", .num (-32603)), ("message", .str e.toStr)])]), 500⟩

/-- app.py `mcp_handler`: the `try` body, with the outer `except Exception`
that builds a -32603 response whose id is `data.get("id", 1) if data else 1`.
That id expression itself calls `.get` on the parsed value when it is truthy,
so it re-raises for a truthy non-dict body, and that raise escapes the
handler entirely. -/
def mcp_handler (cfg : Config) (b : Backend) (data : Option JsonV) :
    Except Exc HttpResp :=
  match mcpTry cfg b data with
  | .ok r => .ok r
  | .error e =>
    match data with
    | none => .ok (internalErrorResp (.num 1) e)
    | some d =>
      if pyTruthy d then
        match pyGet d "id" (.num 1) with
        | .ok idv => .ok (internalErrorResp idv e)
        | .error e2 => .error e2
      else .ok (internalErrorResp (.num 1) e)

/-!
Concrete configurations and backends used to instantiate the theorems.
-/

/-- No credential environment variables set. -/
def noCreds : Config := ⟨none, none, none, none⟩

/-- Only an access token set. -/
def tokenCreds : Config := ⟨some "token", none, none, none⟩

/-- A backend whose every call raises a generic `ApiError`. -/
def stubBackend : Backend where
  files_list_folder := fun _ _ _ => .error (.apiError "stub")
  files_search_v2 := fun _ _ _ _ => .error (.apiError "stub")
  files_get_metadata := fun _ => .error (.apiError "stub")
  files_download := fun _ => .error (.apiError "stub")
  files_upload := fun _ _ _ => .error (.apiError "stub")
  files_create_folder_v2 := fun _ => .error (.apiError "stub")
  files_move_v2 := fun _ _ => .error (.apiError "stub")
  files_copy_v2 := fun _ _ => .error (.apiError "stub")
  files_delete_v2 := fun _ => .error (.apiError "stub")
  sharing_list_shared_links := fun _ => .error (.apiError "stub")
  sharing_create_shared_link_with_settings := fun _ => .error (.apiError "stub")
  files_list_revisions := fun _ _ => .error (.apiError "stub")
  users_get_space_usage := fun _ => .error (.apiError "stub")
  users_get_current_account := fun _ => .error (.apiError "stub")

/-- Metadata of the round-trip test file. -/
def metaHello : FileMeta :=
  ⟨"test.txt", "/test.txt", 11, some "2024-01-01T00:00:00", none, "rev1", none, true⟩

/-- A backend that returns the UTF-8 bytes of "hello world" for any
download, as it would after `upload_file` stored them. -/
def bHello : Backend :=
  { stubBackend with files_download := fun _ => .ok (metaHello, pyEncodeUtf8 "hello world") }

/-- Metadata of a one-byte binary file. -/
def metaFF : FileMeta :=
  ⟨"bin.dat", "/bin.dat", 1, none, none, "rev2", none, true⟩

/-- A backend that returns the single non-UTF-8 byte 0xFF for any
download. -/
def bFF : Backend :=
  { stubBackend with files_download := fun _ => .ok (metaFF, [255]) }

/-- Stringified form of the Dropbox folder-conflict ApiError. -/
def conflictMsg : String :=
  "ApiError(files.CreateFolderError(path, WriteError(conflict, WriteConflictError(folder, None))), path/conflict/folder)"

/-- A backend whose folder creation always reports the already-exists
conflict. -/
def bConflict : Backend :=
  { stubBackend with files_create_folder_v2 := fun _ => .error (.apiError conflictMsg) }

/-- First listing page: two folders. -/
def pageA : List Metadata := [.folder "a" "/a", .folder "b" "/b"]

/-- Second listing page: one folder. -/
def pageB : List Metadata := [.folder "c" "/c"]

/-- One file revision. -/
def rev1 : FileMeta := ⟨"f", "/f", 3, some "2024-01-02T00:00:00", none, "r1", none, true⟩

/-- A backend with concrete listing, search and revision answers. -/
def bPages : Backend :=
  { stubBackend with
    files_list_folder := fun _ _ _ => .ok (pageA, [.ok pageB])
    files_search_v2 := fun _ _ _ _ => .ok [.folder "m" "/m"]
    files_list_revisions := fun _ _ => .ok [rev1] }

/-- The behaviour claim C7 asserts of a text-mode byte-returning result for
fetched bytes `bytes`: UTF-8 decoding is attempted, and either the decoded
text is returned with the representation flagged as utf-8, or the base64
fallback is returned with the representation flagged as base64. -/
def utf8OrBase64Flagged (bytes : List Nat) (d : JsonV) : Prop :=
  match d with
  | .obj kvs =>
    match pyDecodeUtf8 bytes with
    | some s =>
      lookupD kvs "content" = some (.str s) ∧
      lookupD kvs "encoding" = some (.str "utf-8")
    | none =>
      lookupD kvs "content" = some (.str (base64Encode bytes)) ∧
      lookupD kvs "encoding" = some (.str "base64")
  | _ => False

/-- The dict `read_text_file` produces for the byte content `[255]` (file
size 1, no truncation): latin-1 text, no encoding field. -/
def readTextFFDict : JsonV :=
  .obj [("success", .bool true), ("name", .str "bin.dat"),
        ("path", .str "/bin.dat"), ("size", .num 1),
        ("content", .str (latin1Decode [255])), ("truncated", .bool false),
        ("bytes_read", .num 1)]

/-!
Helper lemmas, shared by the claim proofs.
-/

/-- Reduction of a successful bind in the `Except Exc` monad. -/
theorem exceptOkBind {α β : Type} (a : α) (f : α → Except Exc β) :
    (Except.ok a >>= f) = f a := rfl

/-- Reduction of a failed bind in the `Except Exc` monad. -/
theorem exceptErrorBind {α β : Type} (e : Exc) (f : α → Except Exc β) :
    ((Except.error e : Except Exc α) >>= f) = .error e := rfl

/-- Decoding the UTF-8 encoding of one valid scalar in front of any byte tail
yields that scalar's character in front of the decoded tail. -/
theorem utf8DecodeChars_encodeChar (c : Nat) (h : Nat.isValidChar c) (rest : List Nat) :
    utf8DecodeChars (utf8EncodeChar c ++ rest) =
      (utf8DecodeChars rest).map (Char.ofNat c :: ·) := by
  have hlt : c < 0x110000 := by rcases h with h | ⟨h1, h2⟩ <;> omega
  have hsur : ¬ (0xD800 ≤ c ∧ c < 0xE000) := by rcases h with h | ⟨h1, h2⟩ <;> omega
  unfold utf8EncodeChar
  by_cases h1 : c < 0x80
  · simp only [if_pos h1, List.cons_append, List.nil_append]
    rw [utf8DecodeChars.eq_def]
    have hone : utf8DecodeOne c rest = some (c, 0) := by
      unfold utf8DecodeOne
      rw [if_pos h1]
    simp only [hone, List.drop_zero]
  · by_cases h2 : c < 0x800
    · simp only [if_neg h1, if_pos h2, List.cons_append, List.nil_append]
      rw [utf8DecodeChars.eq_def]
      have hone : utf8DecodeOne (0xC0 + c / 64) ((0x80 + c % 64) :: rest) =
          some (c, 1) := by
        unfold utf8DecodeOne
        have ha : ¬ (0xC0 + c / 64 < 0x80) := by omega
        have hb : 0xC0 + c / 64 < 0xE0 := by omega
        have hc : (0xC2 ≤ 0xC0 + c / 64 && utf8IsCont (0x80 + c % 64)) = true := by
          simp only [utf8IsCont, Bool.and_eq_true, decide_eq_true_eq]
          omega
        rw [if_neg ha, if_pos hb]
        simp only [hc, if_pos]
        have hv : (0xC0 + c / 64 - 0xC0) * 64 + (0x80 + c % 64 - 0x80) = c := by omega
        rw [hv]
      simp only [hone, List.drop_succ_cons, List.drop_zero]
    · by_cases h3 : c < 0x10000
      · simp only [if_neg h1, if_neg h2, if_pos h3, List.cons_append, List.nil_append]
        rw [utf8DecodeChars.eq_def]
        have hone : utf8DecodeOne (0xE0 + c / 4096)
            ((0x80 + c / 64 % 64) :: (0x80 + c % 64) :: rest) = some (c, 2) := by
          unfold utf8DecodeOne
          have ha : ¬ (0xE0 + c / 4096 < 0x80) := by omega
          have hb : ¬ (0xE0 + c / 4096 < 0xE0) := by omega
          have hc : 0xE0 + c / 4096 < 0xF0 := by omega
          rw [if_neg ha, if_neg hb, if_pos hc]
          have hv : (0xE0 + c / 4096 - 0xE0) * 4096 + (0x80 + c / 64 % 64 - 0x80) * 64 +
              (0x80 + c % 64 - 0x80) = c := by omega
          simp only [hv]
          have hcond : (utf8IsCont (0x80 + c / 64 % 64) && utf8IsCont (0x80 + c % 64) &&
              decide (0x800 ≤ c) && !(decide (0xD800 ≤ c) && decide (c < 0xE000))) = true := by
            simp only [utf8IsCont, Bool.and_eq_true, Bool.not_eq_true', Bool.and_eq_false_iff,
              decide_eq_true_eq, decide_eq_false_iff_not]
            omega
          simp only [hcond, if_pos]
        simp only [hone, List.drop_succ_cons, List.drop_zero]
      · simp only [if_neg h1, if_neg h2, if_neg h3, List.cons_append, List.nil_append]
        rw [utf8DecodeChars.eq_def]
        have hone : utf8DecodeOne (0xF0 + c / 262144)
            ((0x80 + c / 4096 % 64) :: (0x80 + c / 64 % 64) :: (0x80 + c % 64) :: rest) =
            some (c, 3) := by
          unfold utf8DecodeOne
          have ha : ¬ (0xF0 + c / 262144 < 0x80) := by omega
          have hb : ¬ (0xF0 + c / 262144 < 0xE0) := by omega
          have hc : ¬ (0xF0 + c / 262144 < 0xF0) := by omega
          rw [if_neg ha, if_neg hb, if_neg hc]
          have hv : (0xF0 + c / 262144 - 0xF0) * 262144 + (0x80 + c / 4096 % 64 - 0x80) * 4096 +
              (0x80 + c / 64 % 64 - 0x80) * 64 + (0x80 + c % 64 - 0x80) = c := by omega
          simp only [hv]
          have hcond : (decide (0xF0 + c / 262144 < 0xF5) && utf8IsCont (0x80 + c / 4096 % 64) &&
              utf8IsCont (0x80 + c / 64 % 64) && utf8IsCont (0x80 + c % 64) &&
              decide (0x10000 ≤ c) && decide (c < 0x110000)) = true := by
            simp only [utf8IsCont, Bool.and_eq_true, decide_eq_true_eq]
            omega
          simp only [hcond, if_pos]
        simp only [hone, List.drop_succ_cons, List.drop_zero]

/-- Decoding the concatenated UTF-8 encodings of a character list recovers
the list. -/
theorem utf8DecodeChars_flatMap_encode (cs : List Char) :
    utf8DecodeChars (cs.flatMap (fun c => utf8EncodeChar c.toNat)) = some cs := by
  induction cs with
  | nil => simp [utf8DecodeChars]
  | cons c cs ih =>
    rw [List.flatMap_cons, utf8DecodeChars_encodeChar c.toNat c.valid, ih]
    simp [Char.ofNat_toNat]

/-- Python UTF-8 round trip: decoding an encoded string recovers the
string. -/
theorem pyDecodeUtf8_pyEncodeUtf8 (s : String) :
    pyDecodeUtf8 (pyEncodeUtf8 s) = some s := by
  unfold pyDecodeUtf8 pyEncodeUtf8
  rw [utf8DecodeChars_flatMap_encode]
  rfl

/-- Alphabet index of an encoded 6-bit group. -/
theorem b64CharVal_b64Char : ∀ v : Nat, v < 64 → b64CharVal (b64Char v) = some v := by
  decide

/-- Encoded 6-bit groups are never the padding character. -/
theorem b64Char_ne_eq : ∀ v : Nat, v < 64 → (b64Char v = '=') = False := by
  decide

/-- Base64 round trip at character-list level: decoding an encoded byte list
recovers the bytes. -/
theorem b64DecodeChars_b64EncodeChars : ∀ bs : List Nat, (∀ x ∈ bs, x < 256) →
    b64DecodeChars (b64EncodeChars bs) = some bs := by
  intro bs
  induction bs using b64EncodeChars.induct with
  | case1 => intro _; rfl
  | case2 a =>
    intro hx
    have ha : a < 256 := hx a (by simp)
    have k1 : b64CharVal (b64Char (a / 4)) = some (a / 4) :=
      b64CharVal_b64Char _ (by omega)
    have k2 : b64CharVal (b64Char (a % 4 * 16)) = some (a % 4 * 16) :=
      b64CharVal_b64Char _ (by omega)
    rw [b64EncodeChars, b64DecodeChars]
    simp [k1, k2]
    omega
  | case3 a b =>
    intro hx
    have ha : a < 256 := hx a (by simp)
    have hb : b < 256 := hx b (by simp)
    have k1 : b64CharVal (b64Char (a / 4)) = some (a / 4) :=
      b64CharVal_b64Char _ (by omega)
    have k2 : b64CharVal (b64Char (a % 4 * 16 + b / 16)) = some (a % 4 * 16 + b / 16) :=
      b64CharVal_b64Char _ (by omega)
    have k3 : b64CharVal (b64Char (b % 16 * 4)) = some (b % 16 * 4) :=
      b64CharVal_b64Char _ (by omega)
    have hne : (b64Char (b % 16 * 4) = '=') = False := b64Char_ne_eq _ (by omega)
    rw [b64EncodeChars, b64DecodeChars]
    simp [k1, k2, k3, hne]
    omega
  | case4 a b c rest ih =>
    intro hx
    have ha : a < 256 := hx a (by simp)
    have hb : b < 256 := hx b (by simp)
    have hc : c < 256 := hx c (by simp)
    have hrest : ∀ x ∈ rest, x < 256 := fun x hxr => hx x (by simp [hxr])
    have k1 : b64CharVal (b64Char (a / 4)) = some (a / 4) :=
      b64CharVal_b64Char _ (by omega)
    have k2 : b64CharVal (b64Char (a % 4 * 16 + b / 16)) = some (a % 4 * 16 + b / 16) :=
      b64CharVal_b64Char _ (by omega)
    have k3 : b64CharVal (b64Char (b % 16 * 4 + c / 64)) = some (b % 16 * 4 + c / 64) :=
      b64CharVal_b64Char _ (by omega)
    have k4 : b64CharVal (b64Char (c % 64)) = some (c % 64) :=
      b64CharVal_b64Char _ (by omega)
    have hne1 : (b64Char (b % 16 * 4 + c / 64) = '=') = False := b64Char_ne_eq _ (by omega)
    have hne2 : (b64Char (c % 64) = '=') = False := b64Char_ne_eq _ (by omega)
    rw [b64EncodeChars, b64DecodeChars]
    simp [k1, k2, k3, k4, hne1, hne2, ih hrest]
    omega

/-- Python base64 round trip: `b64decode` of `b64encode` recovers any byte
string. -/
theorem base64Decode_base64Encode (bs : List Nat) (h : ∀ x ∈ bs, x < 256) :
    base64Decode (base64Encode bs) = some bs := by
  unfold base64Decode base64Encode
  rw [show ((b64EncodeChars bs).asString).data = b64EncodeChars bs from rfl]
  exact b64DecodeChars_b64EncodeChars bs h

/-- The inner entry loop appends exactly the page prefix that fits below the
limit. -/
theorem collectEntries_eq (limit : Int) : ∀ (p : List Metadata) (acc : List JsonV),
    (acc.length : Int) < limit →
    collectEntries limit acc p = acc ++ (p.take (limit.toNat - acc.length)).map entryInfo := by
  intro p
  induction p with
  | nil => intro acc h; simp [collectEntries]
  | cons e es ih =>
    intro acc h
    rw [collectEntries]
    by_cases hb : (((acc ++ [entryInfo e]).length : Int) ≥ limit)
    · rw [if_pos hb]
      simp only [List.length_append, List.length_cons, List.length_nil] at hb
      have hn : limit.toNat - acc.length = 1 := by omega
      rw [hn]
      simp
    · rw [if_neg hb]
      simp only [List.length_append, List.length_cons, List.length_nil] at hb
      rw [ih _ (by simp only [List.length_append, List.length_cons, List.length_nil]; omega)]
      have hn : limit.toNat - acc.length = (limit.toNat - ((acc ++ [entryInfo e]).length)) + 1 := by
        simp only [List.length_append, List.length_cons, List.length_nil]
        omega
      rw [hn, List.take_succ_cons, List.map_cons]
      simp [List.length_append]

/-- Length of the accumulated entries after one page. -/
theorem collectEntries_length (limit : Int) (p : List Metadata) (acc : List JsonV)
    (h : (acc.length : Int) < limit) :
    (collectEntries limit acc p).length =
      acc.length + min (limit.toNat - acc.length) p.length := by
  rw [collectEntries_eq limit p acc h]
  simp [List.length_take]

/-- With all continuation pages succeeding, the pagination loop returns
exactly the limit-bounded prefix of the concatenated pages. -/
theorem listFolderGo_ok_pages (limit : Int) : ∀ (qs : List (List Metadata))
    (p0 : List Metadata) (acc : List JsonV), (acc.length : Int) < limit →
    ∃ k, listFolderGo limit acc p0 (qs.map Except.ok) =
      .ok (acc ++ ((p0 ++ qs.flatten).take (limit.toNat - acc.length)).map entryInfo, k) := by
  intro qs
  induction qs with
  | nil =>
    intro p0 acc h
    refine ⟨0, ?_⟩
    rw [List.map_nil, listFolderGo, collectEntries_eq limit p0 acc h]
    simp
  | cons q qs ih =>
    intro p0 acc h
    rw [List.map_cons, listFolderGo]
    by_cases hb : (((collectEntries limit acc p0).length : Int) ≥ limit)
    · refine ⟨0, ?_⟩
      rw [if_pos hb]
      rw [collectEntries_length limit p0 acc h] at hb
      rw [collectEntries_eq limit p0 acc h]
      have hp0 : limit.toNat - acc.length ≤ p0.length := by omega
      rw [List.flatten_cons, ← List.append_assoc, List.take_append_eq_append_take,
        List.take_append_eq_append_take]
      have hz : limit.toNat - acc.length - p0.length = 0 := by omega
      rw [hz, List.take_zero, List.append_nil]
      have hz2 : limit.toNat - acc.length - (p0 ++ q).length = 0 := by
        simp only [List.length_append]
        omega
      rw [hz2, List.take_zero, List.append_nil]
    · rw [if_neg hb]
      rw [collectEntries_length limit p0 acc h] at hb
      have hp0 : p0.length < limit.toNat - acc.length := by omega
      have hacc2 : ((collectEntries limit acc p0).length : Int) < limit := by
        rw [collectEntries_length limit p0 acc h]
        push_cast
        omega
      obtain ⟨k, hk⟩ := ih q (collectEntries limit acc p0) hacc2
      rw [hk]
      refine ⟨k + 1, ?_⟩
      simp only [Except.map]
      congr 2
      rw [collectEntries_eq limit p0 acc h]
      rw [List.take_of_length_le (by omega : p0.length ≤ limit.toNat - acc.length)]
      have hlen : (acc ++ p0.map entryInfo).length = acc.length + p0.length := by
        simp
      rw [hlen]
      rw [List.flatten_cons]
      conv_rhs => rw [← List.append_assoc, List.append_assoc, List.take_append_eq_append_take]
      conv_rhs => rw [List.take_of_length_le (by omega : p0.length ≤ limit.toNat - acc.length)]
      conv_rhs => rw [List.take_append_eq_append_take]
      have e1 : limit.toNat - (acc.length + p0.length) =
          limit.toNat - acc.length - p0.length := by omega
      rw [e1]
      simp only [List.map_append, List.append_assoc, List.map_flatten]
      rw [List.take_append_eq_append_take, List.map_append]

/-- The pagination loop never issues more continuation requests than there
are continuation pages (termination by backend exhaustion). -/
theorem listFolderGo_requests_le (limit : Int) :
    ∀ (rs : List (Except Exc (List Metadata))) (p0 : List Metadata)
      (acc res : List JsonV) (k : Nat),
      listFolderGo limit acc p0 rs = .ok (res, k) → k ≤ rs.length := by
  intro rs
  induction rs with
  | nil =>
    intro p0 acc res k h
    rw [listFolderGo] at h
    simp only [Except.ok.injEq, Prod.mk.injEq] at h
    omega
  | cons r rs ih =>
    intro p0 acc res k h
    rw [listFolderGo.eq_def] at h
    simp only [] at h
    split at h
    · simp only [Except.ok.injEq, Prod.mk.injEq] at h
      simp only [List.length_cons]
      omega
    · match r with
      | .error e => simp at h
      | .ok p =>
        try simp only [] at h
        cases hgo : listFolderGo limit (collectEntries limit acc p0) p rs with
        | error e => rw [hgo] at h; simp [Except.map] at h
        | ok rk =>
          rw [hgo] at h
          simp only [Except.map, Except.ok.injEq, Prod.mk.injEq] at h
          have := ih p (collectEntries limit acc p0) rk.1 rk.2 (by rw [hgo])
          simp only [List.length_cons]
          omega

/-- When the first j+1 pages already contain at least limit entries, at most
j continuation requests are issued: reaching the limit exactly at a page
boundary triggers no extra page request. -/
theorem listFolderGo_requests_page_bound (limit : Int) :
    ∀ (qs : List (List Metadata)) (p0 : List Metadata) (acc res : List JsonV)
      (j k : Nat),
      (acc.length : Int) < limit →
      limit ≤ (acc.length : Int) + (((p0 :: qs).take (j + 1)).flatten.length : Int) →
      listFolderGo limit acc p0 (qs.map Except.ok) = .ok (res, k) → k ≤ j := by
  intro qs
  induction qs with
  | nil =>
    intro p0 acc res j k hacc hcov h
    rw [List.map_nil, listFolderGo] at h
    simp only [Except.ok.injEq, Prod.mk.injEq] at h
    omega
  | cons q qs ih =>
    intro p0 acc res j k hacc hcov h
    rw [List.map_cons, listFolderGo.eq_def] at h
    simp only [] at h
    split at h
    · simp only [Except.ok.injEq, Prod.mk.injEq] at h
      omega
    · rename_i hnb
      rw [collectEntries_length limit p0 acc hacc] at hnb
      -- the break was not taken: entries so far are below the limit
      simp only [List.take_succ_cons, List.flatten_cons] at hcov
      cases j with
      | zero =>
        exfalso
        simp only [List.take_zero, List.flatten_nil, List.append_nil] at hcov
        -- hcov : limit ≤ acc.length + p0.length, so the collect reached the limit
        push_cast at hnb
        omega
      | succ j =>
        try simp only [] at h
        cases hgo : listFolderGo limit (collectEntries limit acc p0) q (qs.map Except.ok) with
        | error e => rw [hgo] at h; simp [Except.map] at h
        | ok rk =>
          rw [hgo] at h
          simp only [Except.map, Except.ok.injEq, Prod.mk.injEq] at h
          have hacc2 : ((collectEntries limit acc p0).length : Int) < limit := by
            rw [collectEntries_length limit p0 acc hacc]
            push_cast
            push_cast at hnb
            omega
          have hcov2 : limit ≤ ((collectEntries limit acc p0).length : Int) +
              (((q :: qs).take (j + 1)).flatten.length : Int) := by
            rw [collectEntries_length limit p0 acc hacc]
            have hmin : (limit.toNat - acc.length) ⊓ p0.length = p0.length := by
              push_cast at hnb
              omega
            rw [hmin]
            push_cast
            simp only [List.length_append] at hcov
            omega
          have := ih q (collectEntries limit acc p0) rk.1 j rk.2 hacc2 hcov2 (by rw [hgo])
          omega

/-!
Claim theorems.
-/

/-- Claim C10: the catalog's descriptor names are pairwise unique, and every
descriptor name has a corresponding implementation reachable by the
dispatcher (a key of `tool_map`).  Both the catalog and the tool map are
top-level constants that nothing in app.py mutates, which is the
fixed-for-the-process-lifetime part of the claim. -/
theorem c10_catalog_names_unique_and_implemented :
    catalogNames.Nodup ∧ ∀ n ∈ catalogNames, n ∈ toolNames := by decide

/-- Claim C1: for every string operation name and every argument value,
`call_tool` returns an envelope and never raises: an unknown name yields the
failure envelope identifying that name, and any exception raised while
executing a known operation (argument binding included) is caught at the
dispatcher boundary and converted to the failure envelope carrying the
exception's message. -/
theorem c1_dispatch_total_and_fault_converting (cfg : Config) (b : Backend)
    (n : String) (args : JsonV) :
    (n ∉ toolNames → call_tool cfg b (.str n) args =
      .ok (failureD ("Unknown tool: " ++ n))) ∧
    (∀ e, n ∈ toolNames → runTool cfg b n args = .error e →
      call_tool cfg b (.str n) args = .ok (failureD e.toStr)) ∧
    (∃ d, call_tool cfg b (.str n) args = .ok d) := by
  refine ⟨fun h => ?_, fun e hn he => ?_, ?_⟩
  · simp [call_tool, h]
  · simp [call_tool, hn, he]
  · by_cases hn : n ∈ toolNames
    · cases he : runTool cfg b n args with
      | ok d => exact ⟨d, by simp [call_tool, hn, he]⟩
      | error e => exact ⟨failureD e.toStr, by simp [call_tool, hn, he]⟩
    · exact ⟨failureD ("Unknown tool: " ++ n), by simp [call_tool, hn]⟩

/-- Witness for C1: a concrete unknown name yields the identifying failure,
and a concrete known operation whose execution raises (unconfigured
credentials) yields the failure with that exception's message. -/
theorem c1_witness :
    call_tool noCreds stubBackend (.str "definitely_not_a_tool") (.obj []) =
      .ok (failureD "Unknown tool: definitely_not_a_tool") ∧
    call_tool noCreds stubBackend (.str "list_folder") (.obj []) =
      .ok (failureD "No Dropbox credentials configured") := by
  constructor
  · exact (c1_dispatch_total_and_fault_converting noCreds stubBackend
      "definitely_not_a_tool" (.obj [])).1 (by decide)
  · exact (c1_dispatch_total_and_fault_converting noCreds stubBackend
      "list_folder" (.obj [])).2.1
      (.valueError "No Dropbox credentials configured") (by decide) rfl

/-- Claim C3 (code bug): an unparseable body does yield the -32700 envelope
with a null id, but the handler does not contain every internal fault: for
the valid JSON body `[1]` the method lookup raises `AttributeError`, and the
id expression `data.get("id", 1) if data else 1` inside the `except` block
re-raises, so the exception escapes `mcp_handler` to the transport instead of
becoming a -32603 envelope. -/
theorem c3_parse_error_ok_but_fault_escapes :
    mcp_handler tokenCreds stubBackend none = .ok parseErrorResp ∧
    mcp_handler tokenCreds stubBackend (some (.arr [.num 1])) =
      .error (.attributeError "object has no attribute get") := ⟨rfl, rfl⟩

/-- Counterexample to claim C4: with no credentials configured, the
`ValueError` raised by `get_dropbox_client` inside `list_folder` is not
caught by the implementation (its handler catches only `ApiError`) and
propagates to the dispatcher, so the implementation does not return a
ResultEnvelope for this listed fault class. -/
theorem c4_counterexample :
    list_folder noCreds stubBackend "" false 100 =
      .error (.valueError "No Dropbox credentials configured") := rfl

/-- Amended claim C4: provider `ApiError` faults are caught inside the
implementation and converted to the failure envelope with the stringified
error (shown for `list_folder`, the cited implementation); authentication
and unconfigured-credential faults propagate out of the implementation and
are converted to the failure envelope at the dispatcher boundary instead. -/
theorem c4_amended_fault_layering (cfg : Config) (b : Backend) :
    (∀ path recursive limit m, get_dropbox_client cfg = .ok () →
      b.files_list_folder path recursive (min limit 2000) = .error (.apiError m) →
      list_folder cfg b path recursive limit = .ok (failureD m)) ∧
    (∀ n args e, n ∈ toolNames → runTool cfg b n args = .error e →
      call_tool cfg b (.str n) args = .ok (failureD e.toStr)) := by
  constructor
  · intro path recursive limit m hcfg hb
    simp only [list_folder, hcfg, hb]
    rfl
  · intro n args e hn he
    simp [call_tool, hn, he]

/-- Witness for the amended C4: a concrete `ApiError` from the backend is
contained inside `list_folder`, and a concrete `ValueError` is contained at
the dispatcher. -/
theorem c4_witness :
    list_folder tokenCreds stubBackend "" false 100 = .ok (failureD "stub") ∧
    call_tool noCreds stubBackend (.str "get_space_usage") (.obj []) =
      .ok (failureD "No Dropbox credentials configured") := by
  constructor
  · exact (c4_amended_fault_layering tokenCreds stubBackend).1 "" false 100 "stub" rfl rfl
  · exact (c4_amended_fault_layering noCreds stubBackend).2 "get_space_usage" (.obj [])
      (.valueError "No Dropbox credentials configured") (by decide) rfl

/-- Claim C8: when the backend reports the folder-already-exists conflict,
`create_folder` detects the "path/conflict/folder" marker in the stringified
`ApiError` and returns a success envelope with an informational message
instead of a failure; a third attempt (the backend, whose folder still
exists, reports the same conflict class, possibly with a different message
string) behaves identically to the second. -/
theorem c8_create_folder_conflict_idempotent (cfg : Config) (b2 b3 : Backend)
    (path m2 m3 : String)
    (hcfg : get_dropbox_client cfg = .ok ())
    (h2 : b2.files_create_folder_v2 path = .error (.apiError m2))
    (hs2 : strContains m2 "path/conflict/folder" = true)
    (h3 : b3.files_create_folder_v2 path = .error (.apiError m3))
    (hs3 : strContains m3 "path/conflict/folder" = true) :
    create_folder cfg b2 path =
      .ok (.obj [("success", .bool true),
                 ("message", .str "Folder already exists"), ("path", .str path)]) ∧
    create_folder cfg b3 path = create_folder cfg b2 path := by
  have e2 : create_folder cfg b2 path =
      .ok (.obj [("success", .bool true),
                 ("message", .str "Folder already exists"), ("path", .str path)]) := by
    simp only [create_folder, hcfg, h2, exceptOkBind, exceptErrorBind]
    simp [hs2]
  have e3 : create_folder cfg b3 path =
      .ok (.obj [("success", .bool true),
                 ("message", .str "Folder already exists"), ("path", .str path)]) := by
    simp only [create_folder, hcfg, h3, exceptOkBind, exceptErrorBind]
    simp [hs3]
  exact ⟨e2, e3.trans e2.symm⟩

/-- Witness for C8 at a concrete conflict-reporting backend. -/
theorem c8_witness :
    create_folder tokenCreds bConflict "/reports" =
      .ok (.obj [("success", .bool true),
                 ("message", .str "Folder already exists"),
                 ("path", .str "/reports")]) := by
  exact (c8_create_folder_conflict_idempotent tokenCreds bConflict bConflict
    "/reports" conflictMsg conflictMsg rfl rfl (by decide) rfl (by decide)).1

/-- Claim C6: uploading valid UTF-8 text with `is_base64=false` stores
exactly its UTF-8 bytes, and downloading a path for which the backend returns
those stored bytes unchanged with `as_text=true` succeeds with byte-identical
content and the encoding field "utf-8". -/
theorem c6_upload_download_roundtrip (cfg : Config) (b : Backend) (path s : String)
    (meta : FileMeta)
    (hcfg : get_dropbox_client cfg = .ok ())
    (hb : b.files_download path = .ok (meta, pyEncodeUtf8 s)) :
    uploadData s false = .ok (pyEncodeUtf8 s) ∧
    download_file cfg b path true =
      .ok (.obj [("success", .bool true), ("name", .str meta.name),
                 ("path", .str meta.path_display), ("size", .num meta.size),
                 ("content", .str s), ("encoding", .str "utf-8")]) := by
  constructor
  · rfl
  · simp only [download_file, hcfg, hb, exceptOkBind]
    simp only [pyDecodeUtf8_pyEncodeUtf8]
    rfl

/-- Witness for C6: the "hello world" round trip of the spec's example. -/
theorem c6_witness :
    download_file tokenCreds bHello "/test.txt" true =
      .ok (.obj [("success", .bool true), ("name", .str "test.txt"),
                 ("path", .str "/test.txt"), ("size", .num 11),
                 ("content", .str "hello world"), ("encoding", .str "utf-8")]) :=
  (c6_upload_download_roundtrip tokenCreds bHello "/test.txt" "hello world"
    metaHello rfl rfl).2

/-- Counterexample to claim C7: `read_text_file` (a byte-returning operation
requested as text) does not fall back to base64 on UTF-8 failure and does not
flag the representation used: for the non-UTF-8 byte 0xFF it silently returns
the latin-1 decoding, and its result dict carries no encoding field at
all. -/
theorem c7_counterexample :
    read_text_file tokenCreds bFF "/bin.dat" 1 = .ok readTextFFDict ∧
    ¬ utf8OrBase64Flagged [255] readTextFFDict := by
  have hdec : pyDecodeUtf8 ([255] : List Nat) = none := by
    simp [pyDecodeUtf8, utf8DecodeChars, utf8DecodeOne]
  constructor
  · have h1 : get_dropbox_client tokenCreds = .ok () := rfl
    have h2 : bFF.files_download "/bin.dat" = .ok (metaFF, [255]) := rfl
    simp only [read_text_file, readTextFFDict, h1, h2, exceptOkBind]
    simp [hdec, latin1Decode, pyTryApi, metaFF]
  · intro h
    simp only [readTextFFDict, utf8OrBase64Flagged, hdec] at h
    have hn : lookupD [("success", JsonV.bool true), ("name", JsonV.str "bin.dat"),
        ("path", JsonV.str "/bin.dat"), ("size", JsonV.num 1),
        ("content", JsonV.str (latin1Decode [255])), ("truncated", JsonV.bool false),
        ("bytes_read", JsonV.num 1)] "encoding" = none := rfl
    rw [hn] at h
    exact Option.noConfusion h.2

/-- Amended claim C7: `download_file` requested as text attempts UTF-8
decoding and, on failure, falls back to base64 (a reversible binary-safe
encoding, as the round-trip conjunct shows) with the representation flagged
in the encoding field; `read_text_file`, by contrast, falls back to latin-1
and returns a dict with no field recording which decoding was used. -/
theorem c7_amended_text_fallbacks (cfg : Config) (b : Backend) (path : String)
    (bytes : List Nat) (meta : FileMeta) (max_bytes : Int)
    (hcfg : get_dropbox_client cfg = .ok ())
    (hb : b.files_download path = .ok (meta, bytes)) :
    (∃ d, download_file cfg b path true = .ok d ∧ utf8OrBase64Flagged bytes d) ∧
    (pyDecodeUtf8 bytes = none → 0 ≤ max_bytes → (bytes.length : Int) ≤ max_bytes →
      read_text_file cfg b path max_bytes =
        .ok (.obj [("success", .bool true), ("name", .str meta.name),
                   ("path", .str meta.path_display), ("size", .num meta.size),
                   ("content", .str (latin1Decode bytes)), ("truncated", .bool false),
                   ("bytes_read", .num bytes.length)])) ∧
    (∀ bs : List Nat, (∀ x ∈ bs, x < 256) → base64Decode (base64Encode bs) = some bs) := by
  refine ⟨?_, ?_, base64Decode_base64Encode⟩
  · cases hdec : pyDecodeUtf8 bytes with
    | some s =>
      refine ⟨JsonV.obj [("success", .bool true), ("name", .str meta.name),
        ("path", .str meta.path_display), ("size", .num meta.size),
        ("content", .str s), ("encoding", .str "utf-8")], ?_, ?_⟩
      · simp only [download_file, hcfg, hb, exceptOkBind]
        simp only [hdec]
        rfl
      · simp only [utf8OrBase64Flagged, hdec]
        exact ⟨rfl, rfl⟩
    | none =>
      refine ⟨JsonV.obj [("success", .bool true), ("name", .str meta.name),
        ("path", .str meta.path_display), ("size", .num meta.size),
        ("content", .str (base64Encode bytes)), ("encoding", .str "base64"),
        ("note", .str "Binary file returned as base64")], ?_, ?_⟩
      · simp only [download_file, hcfg, hb, exceptOkBind]
        simp only [hdec]
        rfl
      · simp only [utf8OrBase64Flagged, hdec]
        exact ⟨rfl, rfl⟩
  · intro hdec hnn hlen
    simp only [read_text_file, hcfg, hb, exceptOkBind]
    have htake : bytes.take max_bytes.toNat = bytes := by
      apply List.take_of_length_le
      omega
    have htr : ((bytes.length : Int) > max_bytes) = False := by
      simp only [gt_iff_lt, eq_iff_iff, iff_false, not_lt]
      exact hlen
    simp only [if_pos hnn, htake, hdec, htr]
    rfl

/-- Witness for the amended C7: the concrete 0xFF download flags base64, the
concrete 0xFF text read uses latin-1 unflagged, and the concrete base64 round
trip holds. -/
theorem c7_witness :
    (∃ d, download_file tokenCreds bFF "/bin.dat" true = .ok d ∧
       utf8OrBase64Flagged [255] d) ∧
    read_text_file tokenCreds bFF "/bin.dat" 1 =
      .ok (.obj [("success", .bool true), ("name", .str "bin.dat"),
                 ("path", .str "/bin.dat"), ("size", .num 1),
                 ("content", .str (latin1Decode [255])), ("truncated", .bool false),
                 ("bytes_read", .num 1)]) ∧
    base64Decode (base64Encode [255]) = some [255] := by
  have hdec : pyDecodeUtf8 ([255] : List Nat) = none := by
    simp [pyDecodeUtf8, utf8DecodeChars, utf8DecodeOne]
  have h := c7_amended_text_fallbacks tokenCreds bFF "/bin.dat" [255] metaFF 1 rfl rfl
  exact ⟨h.1, h.2.1 hdec (by decide) (by decide), h.2.2 [255] (by decide)⟩

/-- Claim C5: listing-style operations never return more entries than the
caller-specified (or default) limit, and the limit truncation of
`list_folder` returns exactly the limit-bounded prefix of the concatenated
backend pages, dropping nothing counted from an earlier partial page.  For
`search_files` and `list_revisions` the cap is enforced by the request the
backend is contractually bound to (its `max_results`/`limit` argument),
stated here as the hypothesis that the backend honours it. -/
theorem c5_listing_counts_bounded (cfg : Config) (b : Backend) :
    (∀ path recursive (limit : Int) p0 rs res k,
      get_dropbox_client cfg = .ok () → 0 ≤ limit →
      b.files_list_folder path recursive (min limit 2000) = .ok (p0, rs) →
      listFolderGo limit [] p0 rs = .ok (res, k) →
      list_folder cfg b path recursive limit =
        .ok (.obj [("success", .bool true),
                   ("path", .str (if path = "" then "/" else path)),
                   ("count", .num res.length),
                   ("entries", .arr (pySliceTo limit res))]) ∧
      ((pySliceTo limit res).length : Int) ≤ limit) ∧
    (∀ path recursive (limit : Int) p0 qs,
      get_dropbox_client cfg = .ok () → 1 ≤ limit →
      b.files_list_folder path recursive (min limit 2000) = .ok (p0, qs.map Except.ok) →
      ∃ res k, listFolderGo limit [] p0 (qs.map Except.ok) = .ok (res, k) ∧
        pySliceTo limit res =
          (((p0 :: qs).flatten).take limit.toNat).map entryInfo) ∧
    (∀ query path exts (maxr : Int) ms,
      get_dropbox_client cfg = .ok () →
      b.files_search_v2 query path exts (min maxr 1000) = .ok ms →
      (ms.length : Int) ≤ min maxr 1000 →
      search_files cfg b query path exts maxr =
        .ok (.obj [("success", .bool true), ("query", .str query),
                   ("count", .num ms.length),
                   ("matches", .arr (ms.map matchInfo))]) ∧
      ((ms.map matchInfo).length : Int) ≤ maxr) ∧
    (∀ path (limit : Int) revs,
      get_dropbox_client cfg = .ok () →
      b.files_list_revisions path limit = .ok revs →
      (revs.length : Int) ≤ limit →
      list_revisions cfg b path limit =
        .ok (.obj [("success", .bool true), ("path", .str path),
                   ("count", .num revs.length),
                   ("revisions", .arr (revs.map revInfo))]) ∧
      ((revs.map revInfo).length : Int) ≤ limit) := by
  refine ⟨?_, ?_, ?_, ?_⟩
  · intro path recursive limit p0 rs res k hcfg hnn hb hgo
    constructor
    · simp only [list_folder, hcfg, hb, exceptOkBind, hgo]
      rfl
    · simp only [pySliceTo, if_pos hnn]
      rw [List.length_take]
      omega
  · intro path recursive limit p0 qs hcfg h1 hb
    have h0 : ((([] : List JsonV)).length : Int) < limit := by
      simp only [List.length_nil, Int.ofNat_eq_coe, Nat.cast_zero]
      omega
    obtain ⟨k, hk⟩ := listFolderGo_ok_pages limit qs p0 [] h0
    simp only [List.nil_append, List.length_nil, Nat.sub_zero] at hk
    refine ⟨_, k, hk, ?_⟩
    have hslice : pySliceTo limit
        (List.map entryInfo (List.take limit.toNat (p0 ++ qs.flatten))) =
        List.map entryInfo (List.take limit.toNat (p0 ++ qs.flatten)) := by
      unfold pySliceTo
      rw [if_pos (by omega)]
      apply List.take_of_length_le
      rw [List.length_map, List.length_take]
      omega
    rw [hslice, List.flatten_cons]
  · intro query path exts maxr ms hcfg hb hcap
    constructor
    · simp only [search_files, hcfg, hb, exceptOkBind]
      rfl
    · rw [List.length_map]
      omega
  · intro path limit revs hcfg hb hcap
    constructor
    · simp only [list_revisions, hcfg, hb, exceptOkBind]
      rfl
    · rw [List.length_map]
      exact hcap

/-- Witness for C5: a concrete two-page listing truncated to limit 2, a
concrete search, and a concrete revision listing. -/
theorem c5_witness :
    (list_folder tokenCreds bPages "" false 2 =
      .ok (.obj [("success", .bool true), ("path", .str "/"),
                 ("count", .num 2),
                 ("entries", .arr [entryInfo (.folder "a" "/a"),
                                   entryInfo (.folder "b" "/b")])]) ∧
      ((2 : Int) ≤ 2)) ∧
    (search_files tokenCreds bPages "q" none none 50 =
      .ok (.obj [("success", .bool true), ("query", .str "q"),
                 ("count", .num 1),
                 ("matches", .arr [matchInfo (.folder "m" "/m")])]) ∧
      ((1 : Int) ≤ 50)) ∧
    (list_revisions tokenCreds bPages "/f" 10 =
      .ok (.obj [("success", .bool true), ("path", .str "/f"),
                 ("count", .num 1),
                 ("revisions", .arr [revInfo rev1])]) ∧
      ((1 : Int) ≤ 10)) := by
  have h := c5_listing_counts_bounded tokenCreds bPages
  refine ⟨?_, ?_, ?_⟩
  · have h1 := h.1 "" false 2 pageA [Except.ok pageB]
      [entryInfo (.folder "a" "/a"), entryInfo (.folder "b" "/b")] 0
      rfl (by decide) rfl rfl
    exact ⟨h1.1, h1.2⟩
  · have h3 := h.2.2.1 "q" none none 50 [Metadata.folder "m" "/m"] rfl rfl (by decide)
    exact ⟨h3.1, h3.2⟩
  · have h4 := h.2.2.2 "/f" 10 [rev1] rfl rfl (by decide)
    exact ⟨h4.1, h4.2⟩

/-- Claim C9: the pagination loop of `list_folder` terminates (it is a total
function of the backend's page sequence, and the number of continuation
requests it makes is bounded by backend exhaustion: never more requests than
there are continuation pages), and it is bounded by the result-count ceiling:
when the first j+1 pages already hold at least `limit` entries — in
particular when the limit lands exactly on a page boundary — no more than j
continuation requests are made, so no extra page is ever fetched. -/
theorem c9_pagination_bounded (limit : Int) :
    (∀ (rs : List (Except Exc (List Metadata))) (p0 : List Metadata)
       (res : List JsonV) (k : Nat),
      listFolderGo limit [] p0 rs = .ok (res, k) → k ≤ rs.length) ∧
    (∀ (qs : List (List Metadata)) (p0 : List Metadata) (res : List JsonV)
       (j k : Nat),
      1 ≤ limit →
      limit ≤ ((((p0 :: qs).take (j + 1)).flatten.length : Int)) →
      listFolderGo limit [] p0 (qs.map Except.ok) = .ok (res, k) → k ≤ j) := by
  constructor
  · intro rs p0 res k h
    exact listFolderGo_requests_le limit rs p0 [] res k h
  · intro qs p0 res j k h1 hcov h
    refine listFolderGo_requests_page_bound limit qs p0 [] res j k ?_ ?_ h
    · simp only [List.length_nil, Nat.cast_zero]
      omega
    · simp only [List.length_nil, Nat.cast_zero, zero_add]
      exact hcov

/-- Witness for C9: on a concrete two-page backend with limit 2, the limit is
reached exactly at the first page boundary and zero continuation requests are
made. -/
theorem c9_witness :
    listFolderGo 2 [] pageA [Except.ok pageB] =
      .ok ([entryInfo (.folder "a" "/a"), entryInfo (.folder "b" "/b")], 0) ∧
    (0 : Nat) ≤ 1 ∧ (0 : Nat) ≤ 0 := by
  refine ⟨rfl, ?_, ?_⟩
  · exact (c9_pagination_bounded 2).1 [Except.ok pageB] pageA
      [entryInfo (.folder "a" "/a"), entryInfo (.folder "b" "/b")] 0 rfl
  · exact (c9_pagination_bounded 2).2 [pageB] pageA
      [entryInfo (.folder "a" "/a"), entryInfo (.folder "b" "/b")] 0 0
      (by decide) (by decide) rfl

/-- Claim C2: every tools/call request (well-formed: object body naming the
method, object or absent params, hashable tool name) receives a 200 response
whose protocol-level result wraps the serialized ResultEnvelope — success or
failure, including unknown tool names and failed executions — as a text
content block, and whose body carries no protocol-level error field. -/
theorem c2_tool_failures_stay_in_result (cfg : Config) (b : Backend)
    (kvs pkvs : List (String × JsonV)) (nm args msgId : JsonV)
    (hmethod : lookupD kvs "method" = some (.str "tools/call"))
    (hparams : (lookupD kvs "params").getD (.obj []) = .obj pkvs)
    (hname : (lookupD pkvs "name").getD .null = nm)
    (hargs : (lookupD pkvs "arguments").getD (.obj []) = args)
    (hid : (lookupD kvs "id").getD (.num 1) = msgId)
    (hnm1 : ∀ xs, nm ≠ .arr xs) (hnm2 : ∀ f, nm ≠ .obj f) :
    ∃ env, call_tool cfg b nm args = .ok env ∧
      mcp_handler cfg b (some (.obj kvs)) =
        .ok ⟨.obj (rpcHeader msgId ++
          [("result", .obj [("content", .arr
            [.obj [("type", .str "text"),
                   ("text", .str (dumps env))]])])]), 200⟩ ∧
      lookupD (rpcHeader msgId ++
          [("result", .obj [("content", .arr
            [.obj [("type", .str "text"),
                   ("text", .str (dumps env))]])])]) "error" = none := by
  have htotal : ∃ env, call_tool cfg b nm args = .ok env := by
    match nm, hnm1, hnm2 with
    | .arr xs, hnm1, _ => exact absurd rfl (hnm1 xs)
    | .obj f, _, hnm2 => exact absurd rfl (hnm2 f)
    | .null, _, _ => exact ⟨_, rfl⟩
    | .bool v, _, _ => exact ⟨_, rfl⟩
    | .num v, _, _ => exact ⟨_, rfl⟩
    | .str n, _, _ =>
      by_cases hn : n ∈ toolNames
      · cases he : runTool cfg b n args with
        | ok d => exact ⟨d, by simp [call_tool, hn, he]⟩
        | error e => exact ⟨failureD e.toStr, by simp [call_tool, hn, he]⟩
      · exact ⟨failureD ("Unknown tool: " ++ n), by simp [call_tool, hn]⟩
  obtain ⟨env, henv⟩ := htotal
  have hne : kvs ≠ [] := by
    intro hk
    rw [hk] at hmethod
    exact Option.noConfusion hmethod
  have htruthy : pyTruthy (.obj kvs) = true := by
    simp [pyTruthy, hne]
  have he1 : pyGet (.obj kvs) "method" .null = .ok (.str "tools/call") := by
    simp [pyGet, hmethod]
  have he2 : pyGet (.obj kvs) "params" (.obj []) = .ok (.obj pkvs) := by
    simp [pyGet, hparams]
  have he3 : pyGet (.obj kvs) "id" (.num 1) = .ok msgId := by
    simp [pyGet, hid]
  have he4 : pyGet (.obj pkvs) "name" .null = .ok nm := by
    simp [pyGet, hname]
  have he5 : pyGet (.obj pkvs) "arguments" (.obj []) = .ok args := by
    simp [pyGet, hargs]
  have htry : mcpTry cfg b (some (.obj kvs)) =
      .ok ⟨.obj (rpcHeader msgId ++
        [("result", .obj [("content", .arr
          [.obj [("type", .str "text"),
                 ("text", .str (dumps env))]])])]), 200⟩ := by
    rw [mcpTry]
    rw [htruthy]
    simp only [Bool.true_eq_false, if_false]
    rw [he1, exceptOkBind, he2, exceptOkBind, he3, exceptOkBind]
    simp only []
    rw [he4, exceptOkBind, he5, exceptOkBind, henv, exceptOkBind]
  refine ⟨env, henv, ?_, rfl⟩
  rw [mcp_handler, htry]

/-- Witness for C2: a concrete tools/call request naming an unknown tool
still yields a 200 protocol-level result wrapping the failure envelope, with
no protocol-level error field. -/
theorem c2_witness :
    ∃ env, call_tool tokenCreds stubBackend (.str "nope") (.obj []) = .ok env ∧
      mcp_handler tokenCreds stubBackend
        (some (.obj [("jsonrpc", .str "2.0"), ("id", .num 7),
                     ("method", .str "tools/call"),
                     ("params", .obj [("name", .str "nope")])])) =
        .ok ⟨.obj (rpcHeader (.num 7) ++
          [("result", .obj [("content", .arr
            [.obj [("type", .str "text"),
                   ("text", .str (dumps env))]])])]), 200⟩ ∧
      lookupD (rpcHeader (.num 7) ++
          [("result", .obj [("content", .arr
            [.obj [("type", .str "text"),
                   ("text", .str (dumps env))]])])]) "error" = none :=
  c2_tool_failures_stay_in_result tokenCreds stubBackend
    [("jsonrpc", .str "2.0"), ("id", .num 7), ("method", .str "tools/call"),
     ("params", .obj [("name", .str "nope")])]
    [("name", .str "nope")] (.str "nope") (.obj []) (.num 7)
    rfl rfl rfl rfl rfl
    (by intro xs h; cases h) (by intro f h; cases h)
